import Mathlib

/-
Verification of `investos`' single-period optimization strategy
(`src/investos/portfolio_optimization/strategy/spo.py`, class `SPO`).

The embedding models pandas Series as an index list paired with a data
list of rationals, cvxpy expressions as opaque objects carrying the
curvature verdicts the code queries (`is_concave`, `is_convex`,
`is_dcp`), and the external solver as an oracle mapping the assembled
problem (plus the configured solver name and options) to a terminal
outcome: either a status string with an optional value for the trade
variable `z`, or a raised `cvx.SolverError` / `TypeError`.

Python exceptions are modelled structurally: an exception has a class
(`AssertionError`, generic `Exception`, `cvx.SolverError`, `TypeError`)
and a payload identifying its message.  The `try/except` block of
`generate_trade_list` is modelled by `Except.mapError` with a handler
that converts exactly the two caught classes.
-/

/-- Timestamps (`datetime.datetime`), kept abstract. -/
abbrev Time := ℕ

/-- A pandas `Series`: an index of asset identifiers and the data vector. -/
structure Series where
  index : List String
  data : List ℚ
deriving DecidableEq

/-- An opaque cvxpy scalar expression: an identifying tag plus the DCP
curvature verdicts cvxpy would report for it. -/
structure CExpr where
  tag : ℕ
  is_concave : Bool
  is_convex : Bool
deriving DecidableEq

/-- An opaque cvxpy constraint expression produced by a collaborator,
with the DCP verdict cvxpy would report for it. -/
structure CConstr where
  tag : ℕ
  is_dcp : Bool
deriving DecidableEq

/-- A constraint of the assembled program: the zero-sum trade
constraint `cvx.sum(z) == 0` built by the strategy itself, or a
collaborator-supplied constraint expression. -/
inductive ProbConstr
| zeroSumTrades
| user (c : CConstr)
deriving DecidableEq

/-- The assembled convex program `cvx.Problem(cvx.Maximize(maximand),
constraints)`. -/
structure CvxProblem where
  maximand : CExpr
  constraints : List ProbConstr
deriving DecidableEq

/-- A Cost provider (`BaseCost` collaborator): `weight_expr(t, wplus, z,
value)` returns a cost expression and a list of extra constraints.  The
symbolic arguments `wplus = w + z` and `z` are determined by the weight
vector `w`, so the provider is modelled as a function of `(t, w, value)`. -/
structure CostProvider where
  weight_expr : Time → List ℚ → ℚ → CExpr × List CConstr

/-- A Constraint provider (`BaseConstraint` collaborator):
`weight_expr(t, wplus, z, value)` returns a single constraint expression. -/
structure ConstraintProvider where
  weight_expr : Time → List ℚ → ℚ → CConstr

/-- Outcome of `prob.solve(...)`: either the solve returns, setting
`prob.status` and possibly a value for `z` (`z.value` stays `None` for
statuses with no solution), or it raises `cvx.SolverError` or
`TypeError`. -/
inductive SolveOutcome
| finished (status : String) (zval : Option (List ℚ))
| raisesSolverError
| raisesTypeError
deriving DecidableEq

/-- Python exception classes relevant to `generate_trade_list`. -/
inductive ExnCls
| assertionError
| exception
| solverError
| typeError
deriving DecidableEq

/-- Exception payloads: a bare failed `assert`; the message
`'The problem is infeasible'`; the message `'The solver %s failed'`
carrying the configured solver; an internal error raised by the solve
call; the `TypeError` from evaluating `None * value`. -/
inductive ExnMsg
| assertFailed
| problemInfeasible
| solverFailed (solver : Option String)
| solverInternal
| badOperandType
deriving DecidableEq

/-- A raised Python exception: class and payload. -/
structure Exn where
  cls : ExnCls
  msg : ExnMsg
deriving DecidableEq

/-- Diagnostics printed during a call: `print(f"The problem is
unbounded at {t}")`. -/
inductive LogMsg
| unboundedAt (t : Time)
deriving DecidableEq

/-- The state of an `SPO` strategy object: its attributes.
`forecast_returns` models the composite
`values_in_time(self.forecast_returns, t).values`.
Modelled from the spec: `investos.util.values_in_time` is not under
`src/`; per the spec's Forecast Provider contract it is a time-indexed
lookup returning a numeric vector aligned to the asset index, so the
attribute is embedded directly as that lookup function (calls are
considered after the backtester has injected it).  `optimizer` is the
opaque owning-backtester reference, never read by the call.  `prob` is
the attribute written by `self.prob = cvx.Problem(...)`. -/
structure SPO where
  forecast_returns : Time → List ℚ
  optimizer : Option ℕ
  costs : List CostProvider
  constraints : List ConstraintProvider
  solver : Option String
  solver_opts : List (String × ℚ)
  prob : Option CvxProblem

/-- Per-call external capabilities: the clock read
`dt.datetime.today()`; cvxpy's construction of the expression
`cvx.sum(cvx.multiply(forecast_values, wplus))` from the forecast
vector and the weight vector (curvature verdict included); and the
solver invoked by `prob.solve(solver=..., **solver_opts)`. -/
structure CallEnv where
  today : Time
  mkAlphaTerm : List ℚ → List ℚ → CExpr
  solve : CvxProblem → Option String → List (String × ℚ) → SolveOutcome

/-- `if t is None: t = dt.datetime.today()`. -/
def resolveT (t? : Option Time) (env : CallEnv) : Time :=
  t?.getD env.today

/-- `value = sum(holdings)`. -/
def seriesValue (holdings : Series) : ℚ :=
  holdings.data.sum

/-- `w = holdings / value` (portfolio weights). -/
def seriesWeights (holdings : Series) : List ℚ :=
  holdings.data.map (fun x => x / seriesValue holdings)

/-- The loop `for cost in self.costs: cost_expr, const_expr =
cost.weight_expr(t, wplus, z, value); costs.append(cost_expr);
constraints += const_expr`: returns the collected cost expressions and
the accumulated extra constraints, in call order. -/
def collectFromCosts (costs : List CostProvider) (t : Time) (w : List ℚ)
    (value : ℚ) : List CExpr × List CConstr :=
  costs.foldl
    (fun acc cost =>
      let r := cost.weight_expr t w value
      (acc.1 ++ [r.1], acc.2 ++ r.2))
    ([], [])

/-- `constraints += [con.weight_expr(t, wplus, z, value) for con in
self.constraints]`. -/
def providerConstraints (cons : List ConstraintProvider) (t : Time)
    (w : List ℚ) (value : ℚ) : List CConstr :=
  cons.map (fun c => c.weight_expr t w value)

/-- The full collaborator constraint list held in the local variable
`constraints` when the problem is assembled: extra constraints from
Cost providers followed by the Constraint providers' constraints. -/
def allUserConstraints (self : SPO) (t : Time) (w : List ℚ)
    (value : ℚ) : List CConstr :=
  (collectFromCosts self.costs t w value).2
    ++ providerConstraints self.constraints t w value

/-- The three `assert` statements of `generate_trade_list`:
`assert(alpha_term.is_concave())`, `for el in costs: assert
(el.is_convex())`, `for el in constraints: assert (el.is_dcp())`. -/
def assertionsPass (self : SPO) (env : CallEnv) (holdings : Series)
    (t : Time) : Bool :=
  let value := seriesValue holdings
  let w := seriesWeights holdings
  let alpha_term := env.mkAlphaTerm (self.forecast_returns t) w
  alpha_term.is_concave
    && (collectFromCosts self.costs t w value).1.all (fun el => el.is_convex)
    && (allUserConstraints self t w value).all (fun el => el.is_dcp)

/-- `self.prob = cvx.Problem(cvx.Maximize(alpha_term), [cvx.sum(z) ==
0] + constraints)`: the objective is `alpha_term` alone (the line
subtracting `sum(costs)` is commented out in the source), and the
constraint list prepends the zero-sum trade constraint to the
collected collaborator constraints. -/
def builtProblem (self : SPO) (env : CallEnv) (holdings : Series)
    (t : Time) : CvxProblem :=
  let value := seriesValue holdings
  let w := seriesWeights holdings
  { maximand := env.mkAlphaTerm (self.forecast_returns t) w
    constraints :=
      ProbConstr.zeroSumTrades
        :: (allUserConstraints self t w value).map ProbConstr.user }

/-- Modelled from the spec: `BaseStrategy._zerotrade` is defined in
`investos/portfolio_optimization/strategy/base_strategy.py`, which is
not under `src/`.  Per the spec it returns "an all-zero trade list (no
trades this period)", one zero entry per asset in `holdings`, holdings-
indexed. -/
def zerotrade (holdings : Series) : Series :=
  { index := holdings.index
    data := holdings.index.map (fun _ => (0 : ℚ)) }

/-- The body of the `try` block: invoke the solver, then branch on
`self.prob.status`.  `'unbounded'` prints the diagnostic and returns
the zero trade list; `'infeasible'` raises a generic
`Exception('The problem is infeasible')`; any other status falls
through to `return pd.Series(index=holdings.index, data=(z.value *
value))`, which raises `TypeError` when `z.value` is `None`. -/
def tryBody (self : SPO) (env : CallEnv) (holdings : Series) (t : Time)
    (prob : CvxProblem) (value : ℚ) : List LogMsg × Except Exn Series :=
  match env.solve prob self.solver self.solver_opts with
  | SolveOutcome.raisesSolverError =>
      ([], Except.error ⟨ExnCls.solverError, ExnMsg.solverInternal⟩)
  | SolveOutcome.raisesTypeError =>
      ([], Except.error ⟨ExnCls.typeError, ExnMsg.badOperandType⟩)
  | SolveOutcome.finished status zval =>
      if status = "unbounded" then
        ([LogMsg.unboundedAt t], Except.ok (zerotrade holdings))
      else if status = "infeasible" then
        ([], Except.error ⟨ExnCls.exception, ExnMsg.problemInfeasible⟩)
      else
        match zval with
        | none => ([], Except.error ⟨ExnCls.typeError, ExnMsg.badOperandType⟩)
        | some zs =>
            ([], Except.ok { index := holdings.index
                             data := zs.map (fun zi => zi * value) })

/-- `except (cvx.SolverError, TypeError): raise Exception('The solver
%s failed' % self.solver)`: exactly those two classes are converted;
every other exception propagates unchanged. -/
def exceptHandler (solver : Option String) (e : Exn) : Exn :=
  if e.cls = ExnCls.solverError ∨ e.cls = ExnCls.typeError then
    ⟨ExnCls.exception, ExnMsg.solverFailed solver⟩
  else
    e

/-- `SPO.generate_trade_list(self, holdings, t)`.  Returns the
strategy state after the call, the diagnostics printed, and either the
returned trade list or the exception that propagated to the caller. -/
def generate_trade_list (self : SPO) (env : CallEnv) (holdings : Series)
    (t? : Option Time) : SPO × List LogMsg × Except Exn Series :=
  let t := resolveT t? env
  let value := seriesValue holdings
  if assertionsPass self env holdings t then
    let prob := builtProblem self env holdings t
    let self' := { self with prob := some prob }
    let r := tryBody self env holdings t prob value
    (self', r.1, Except.mapError (exceptHandler self.solver) r.2)
  else
    (self, [], Except.error ⟨ExnCls.assertionError, ExnMsg.assertFailed⟩)

/-! ### Helper lemmas -/

/-- The body of `generate_trade_list` never reads `self.prob`:
the assertion check is invariant under updating that attribute. -/
theorem assertionsPass_update_prob (st : SPO) (p : Option CvxProblem)
    (env : CallEnv) (holdings : Series) (t : Time) :
    assertionsPass { st with prob := p } env holdings t
      = assertionsPass st env holdings t := rfl

/-- The assembled problem is invariant under updating `self.prob`. -/
theorem builtProblem_update_prob (st : SPO) (p : Option CvxProblem)
    (env : CallEnv) (holdings : Series) (t : Time) :
    builtProblem { st with prob := p } env holdings t
      = builtProblem st env holdings t := rfl

/-- The `try` body is invariant under updating `self.prob`. -/
theorem tryBody_update_prob (st : SPO) (p : Option CvxProblem)
    (env : CallEnv) (holdings : Series) (t : Time) (prob : CvxProblem)
    (value : ℚ) :
    tryBody { st with prob := p } env holdings t prob value
      = tryBody st env holdings t prob value := rfl

/-- Unfolding of a call whose assertions pass. -/
theorem generate_eq_of_pass (st : SPO) (env : CallEnv) (holdings : Series)
    (t? : Option Time)
    (hA : assertionsPass st env holdings (resolveT t? env) = true) :
    generate_trade_list st env holdings t?
      = ({ st with prob := some (builtProblem st env holdings (resolveT t? env)) },
         (tryBody st env holdings (resolveT t? env)
            (builtProblem st env holdings (resolveT t? env))
            (seriesValue holdings)).1,
         Except.mapError (exceptHandler st.solver)
           (tryBody st env holdings (resolveT t? env)
              (builtProblem st env holdings (resolveT t? env))
              (seriesValue holdings)).2) := by
  unfold generate_trade_list
  simp [hA]

/-- Unfolding of a call whose assertions fail. -/
theorem generate_eq_of_fail (st : SPO) (env : CallEnv) (holdings : Series)
    (t? : Option Time)
    (hA : assertionsPass st env holdings (resolveT t? env) = false) :
    generate_trade_list st env holdings t?
      = (st, [], Except.error ⟨ExnCls.assertionError, ExnMsg.assertFailed⟩) := by
  unfold generate_trade_list
  simp [hA]

/-- Scaling a list termwise scales its sum. -/
theorem sum_map_mul_value (v : ℚ) (l : List ℚ) :
    (l.map (fun x => x * v)).sum = l.sum * v := by
  induction l with
  | nil => simp
  | cons a l ih => simp [ih, add_mul]

/-! ### Claim theorems -/

/-- C9: with `t = None` the call substitutes the current time
(`dt.datetime.today()`, modelled as `env.today`) and proceeds exactly
as a call with that timestamp supplied; a supplied timestamp is used
unchanged by the resolution step. -/
theorem spo_timestamp_defaulting (st : SPO) (env : CallEnv)
    (holdings : Series) :
    generate_trade_list st env holdings none
        = generate_trade_list st env holdings (some env.today)
      ∧ ∀ t : Time, resolveT (some t) env = t :=
  ⟨rfl, fun _ => rfl⟩

/-- C7 (counterexample): the claim that no attribute of the strategy
object is written during a call is false: at this concrete call the
`prob` attribute changes (from `None` to the assembled problem). -/
theorem spo_state_mutation_counterexample :
    (generate_trade_list
        { forecast_returns := fun _ => [1/50, 1/100, 0]
          optimizer := none
          costs := []
          constraints := []
          solver := some "ECOS"
          solver_opts := []
          prob := none }
        { today := 7
          mkAlphaTerm := fun _ _ => ⟨0, true, false⟩
          solve := fun _ _ _ => SolveOutcome.finished "optimal" (some [0, 0, 0]) }
        ⟨["A", "B", "cash"], [50, 30, 20]⟩
        (some 3)).1.prob
      ≠ (none : Option CvxProblem) := by
  decide

/-- C7 (amended): a call leaves every attribute of the strategy object
unchanged except `prob`, which either keeps its previous value (when an
assertion fails before the problem is assembled) or holds the freshly
assembled optimization problem, which persists on the object after the
call. -/
theorem spo_frame_only_prob_written (st : SPO) (env : CallEnv)
    (holdings : Series) (t? : Option Time) :
    (generate_trade_list st env holdings t?).1.forecast_returns
        = st.forecast_returns
      ∧ (generate_trade_list st env holdings t?).1.optimizer = st.optimizer
      ∧ (generate_trade_list st env holdings t?).1.costs = st.costs
      ∧ (generate_trade_list st env holdings t?).1.constraints = st.constraints
      ∧ (generate_trade_list st env holdings t?).1.solver = st.solver
      ∧ (generate_trade_list st env holdings t?).1.solver_opts = st.solver_opts
      ∧ ((generate_trade_list st env holdings t?).1.prob = st.prob
          ∨ (generate_trade_list st env holdings t?).1.prob
              = some (builtProblem st env holdings (resolveT t? env))) := by
  by_cases hA : assertionsPass st env holdings (resolveT t? env) = true
  · rw [generate_eq_of_pass st env holdings t? hA]
    exact ⟨rfl, rfl, rfl, rfl, rfl, rfl, Or.inr rfl⟩
  · rw [generate_eq_of_fail st env holdings t? (by simpa using hA)]
    exact ⟨rfl, rfl, rfl, rfl, rfl, rfl, Or.inl rfl⟩

/-- C8: calling the strategy a second time with identical holdings,
timestamp, and collaborator state (same deterministic solver oracle)
yields the same trade list, diagnostics, and final state as the first
call: the only attribute the first call may have changed (`prob`) is
never read by the body. -/
theorem spo_repeat_call_idempotent (st : SPO) (env : CallEnv)
    (holdings : Series) (t? : Option Time) :
    generate_trade_list (generate_trade_list st env holdings t?).1
        env holdings t?
      = generate_trade_list st env holdings t? := by
  by_cases hA : assertionsPass st env holdings (resolveT t? env) = true
  · have hA2 : assertionsPass
        { st with prob := some (builtProblem st env holdings (resolveT t? env)) }
        env holdings (resolveT t? env) = true := hA
    rw [generate_eq_of_pass st env holdings t? hA]
    show generate_trade_list
        { st with prob := some (builtProblem st env holdings (resolveT t? env)) }
        env holdings t? = _
    rw [generate_eq_of_pass _ env holdings t? hA2]
    rfl
  · rw [generate_eq_of_fail st env holdings t? (by simpa using hA)]
    show generate_trade_list st env holdings t? = _
    rw [generate_eq_of_fail st env holdings t? (by simpa using hA)]

/-- C1: when the solve finishes with status `'optimal'` (so the solver
returned a value `zs` for `z` satisfying the program's `sum(z) == 0`
constraint), the call returns a Series with exactly the input
holdings' index (same set, same order) whose entry for asset `i` is
`zs[i] * value` with `value = sum(holdings)`; those entries sum to
zero; and the assembled program indeed carries the zero-sum trade
constraint. -/
theorem spo_optimal_trades (st : SPO) (env : CallEnv) (holdings : Series)
    (t? : Option Time) (zs : List ℚ)
    (hA : assertionsPass st env holdings (resolveT t? env) = true)
    (hS : env.solve (builtProblem st env holdings (resolveT t? env))
            st.solver st.solver_opts
          = SolveOutcome.finished "optimal" (some zs))
    (hZ : zs.sum = 0) :
    (generate_trade_list st env holdings t?).2.2
        = Except.ok { index := holdings.index
                      data := zs.map (fun zi => zi * seriesValue holdings) }
      ∧ (zs.map (fun zi => zi * seriesValue holdings)).sum = 0
      ∧ ProbConstr.zeroSumTrades
          ∈ (builtProblem st env holdings (resolveT t? env)).constraints := by
  refine ⟨?_, ?_, ?_⟩
  · rw [generate_eq_of_pass st env holdings t? hA]
    simp [tryBody, hS, Except.mapError]
  · rw [sum_map_mul_value, hZ, zero_mul]
  · simp [builtProblem]

/-- C2: the program assembled and stored by a call maximizes the alpha
term alone — the objective equals the cvxpy expression built from the
forecast at the resolved timestamp and the weight vector, with the
collected cost expressions excluded — and its constraint list is
exactly the zero-sum trade constraint followed by the extra
constraints of the Cost providers and the single constraint of each
Constraint provider. -/
theorem spo_program_shape (st : SPO) (env : CallEnv) (holdings : Series)
    (t? : Option Time)
    (hA : assertionsPass st env holdings (resolveT t? env) = true) :
    (generate_trade_list st env holdings t?).1.prob
        = some (builtProblem st env holdings (resolveT t? env))
      ∧ (builtProblem st env holdings (resolveT t? env)).maximand
          = env.mkAlphaTerm (st.forecast_returns (resolveT t? env))
              (seriesWeights holdings)
      ∧ (builtProblem st env holdings (resolveT t? env)).constraints
          = ProbConstr.zeroSumTrades
              :: ((collectFromCosts st.costs (resolveT t? env)
                      (seriesWeights holdings) (seriesValue holdings)).2
                  ++ providerConstraints st.constraints (resolveT t? env)
                      (seriesWeights holdings) (seriesValue holdings)).map
                    ProbConstr.user := by
  refine ⟨?_, rfl, rfl⟩
  rw [generate_eq_of_pass st env holdings t? hA]

/-- C3: when the solve finishes with status `'unbounded'`, the call
prints the diagnostic carrying the (resolved) timestamp and returns
the all-zero trade list — one zero entry per asset of `holdings`,
holdings-indexed — without raising any error. -/
theorem spo_unbounded_soft_failure (st : SPO) (env : CallEnv)
    (holdings : Series) (t? : Option Time) (zval : Option (List ℚ))
    (hA : assertionsPass st env holdings (resolveT t? env) = true)
    (hS : env.solve (builtProblem st env holdings (resolveT t? env))
            st.solver st.solver_opts
          = SolveOutcome.finished "unbounded" zval) :
    (generate_trade_list st env holdings t?).2
        = ([LogMsg.unboundedAt (resolveT t? env)],
           Except.ok (zerotrade holdings))
      ∧ (zerotrade holdings).index = holdings.index
      ∧ (zerotrade holdings).data.length = holdings.index.length
      ∧ ∀ x ∈ (zerotrade holdings).data, x = 0 := by
  refine ⟨?_, rfl, by simp [zerotrade], by simp [zerotrade]⟩
  rw [generate_eq_of_pass st env holdings t? hA]
  simp [tryBody, hS, Except.mapError]

/-- C4: when the solve finishes with status `'infeasible'`, the call
raises the generic `Exception('The problem is infeasible')` and
returns no trade list; the `except (cvx.SolverError, TypeError)`
handler does not intercept it, so it is not converted into the
solver-failed error (from which it differs for every configured
solver). -/
theorem spo_infeasible_hard_failure (st : SPO) (env : CallEnv)
    (holdings : Series) (t? : Option Time) (zval : Option (List ℚ))
    (hA : assertionsPass st env holdings (resolveT t? env) = true)
    (hS : env.solve (builtProblem st env holdings (resolveT t? env))
            st.solver st.solver_opts
          = SolveOutcome.finished "infeasible" zval) :
    (generate_trade_list st env holdings t?).2.2
        = Except.error ⟨ExnCls.exception, ExnMsg.problemInfeasible⟩
      ∧ exceptHandler st.solver ⟨ExnCls.exception, ExnMsg.problemInfeasible⟩
          = ⟨ExnCls.exception, ExnMsg.problemInfeasible⟩
      ∧ ∀ s : Option String,
          (⟨ExnCls.exception, ExnMsg.problemInfeasible⟩ : Exn)
            ≠ ⟨ExnCls.exception, ExnMsg.solverFailed s⟩ := by
  refine ⟨?_, by simp [exceptHandler], by intro s; simp⟩
  rw [generate_eq_of_pass st env holdings t? hA]
  simp [tryBody, hS, exceptHandler, Except.mapError]

/-- C5: when the solve call raises `cvx.SolverError` or `TypeError`,
the handler converts it and the call raises
`Exception('The solver %s failed' % self.solver)`, whose payload names
the configured solver; no trade list is produced. -/
theorem spo_solver_raise_failure (st : SPO) (env : CallEnv)
    (holdings : Series) (t? : Option Time)
    (hA : assertionsPass st env holdings (resolveT t? env) = true)
    (hS : env.solve (builtProblem st env holdings (resolveT t? env))
            st.solver st.solver_opts
          = SolveOutcome.raisesSolverError
        ∨ env.solve (builtProblem st env holdings (resolveT t? env))
            st.solver st.solver_opts
          = SolveOutcome.raisesTypeError) :
    (generate_trade_list st env holdings t?).2.2
        = Except.error ⟨ExnCls.exception, ExnMsg.solverFailed st.solver⟩ := by
  rw [generate_eq_of_pass st env holdings t? hA]
  rcases hS with hS | hS <;> simp [tryBody, hS, exceptHandler, Except.mapError]

/-- C6: if the alpha term is not concave, or some collected cost
expression is not convex, or some collected constraint expression is
not DCP, the call ends in a failed `assert` — an `AssertionError`
propagates, the strategy state is untouched (in particular no problem
is assembled or stored), and the outcome is the same whatever the
solver oracle would have answered, since the solver is never
invoked. -/
theorem spo_nonconvex_assert_fails_fast (st : SPO) (env : CallEnv)
    (holdings : Series) (t? : Option Time)
    (hBad : (env.mkAlphaTerm (st.forecast_returns (resolveT t? env))
                (seriesWeights holdings)).is_concave = false
      ∨ (∃ e ∈ (collectFromCosts st.costs (resolveT t? env)
                  (seriesWeights holdings) (seriesValue holdings)).1,
            e.is_convex = false)
      ∨ (∃ c ∈ allUserConstraints st (resolveT t? env)
                  (seriesWeights holdings) (seriesValue holdings),
            c.is_dcp = false)) :
    generate_trade_list st env holdings t?
      = (st, [], Except.error ⟨ExnCls.assertionError, ExnMsg.assertFailed⟩) := by
  apply generate_eq_of_fail
  unfold assertionsPass
  rcases hBad with h | ⟨e, he, h⟩ | ⟨c, hc, h⟩
  · simp [h]
  · simp only [Bool.and_eq_false_iff]
    left
    right
    simp only [List.all_eq_false]
    exact ⟨e, he, by simp [h]⟩
  · simp only [Bool.and_eq_false_iff]
    right
    simp only [List.all_eq_false]
    exact ⟨c, hc, by simp [h]⟩

/-- C10: for a finished solve whose status is neither `'unbounded'`
nor `'infeasible'`, the code performs no check that the status is
`'optimal'`: it proceeds to build the trade list from `z.value`.  When
`z.value` is present the scaled trades are returned even for an
abnormal status; when `z.value` is `None` the resulting `TypeError` is
caught and re-raised as the solver-failed error, not as an
infeasibility or a distinct status error. -/
theorem spo_status_not_checked (st : SPO) (env : CallEnv)
    (holdings : Series) (t? : Option Time) (status : String)
    (zval : Option (List ℚ))
    (hA : assertionsPass st env holdings (resolveT t? env) = true)
    (hS : env.solve (builtProblem st env holdings (resolveT t? env))
            st.solver st.solver_opts
          = SolveOutcome.finished status zval)
    (h1 : status ≠ "unbounded") (h2 : status ≠ "infeasible") :
    (generate_trade_list st env holdings t?).2.2
      = match zval with
        | none =>
            Except.error ⟨ExnCls.exception, ExnMsg.solverFailed st.solver⟩
        | some zs =>
            Except.ok { index := holdings.index
                        data := zs.map (fun zi => zi * seriesValue holdings) } := by
  rw [generate_eq_of_pass st env holdings t? hA]
  cases zval with
  | none => simp [tryBody, hS, h1, h2, exceptHandler, Except.mapError]
  | some zs => simp [tryBody, hS, h1, h2, exceptHandler, Except.mapError]

/-! ### Concrete strategy, holdings, and call environments used by the
witnesses -/

/-- A configured strategy: no Cost providers, no Constraint providers,
solver `'ECOS'`, empty options, forecast injected, no problem stored
yet. -/
def demoSPO : SPO where
  forecast_returns := fun _ => [1/50, 1/100, 0]
  optimizer := none
  costs := []
  constraints := []
  solver := some "ECOS"
  solver_opts := []
  prob := none

/-- Holdings {A: 50, B: 30, cash: 20}, total value 100. -/
def demoHoldings : Series :=
  { index := ["A", "B", "cash"], data := [50, 30, 20] }

/-- An environment whose cvxpy reports the alpha term concave and
whose solver always produces the given outcome. -/
def demoEnv (out : SolveOutcome) : CallEnv where
  today := 7
  mkAlphaTerm := fun _ _ => { tag := 0, is_concave := true, is_convex := false }
  solve := fun _ _ _ => out

/-- Environment with an optimal solve returning `z = [1/10, -1/10, 0]`. -/
def demoOptEnv : CallEnv :=
  demoEnv (SolveOutcome.finished "optimal" (some [1/10, -1/10, 0]))

/-- Environment with an unbounded solve. -/
def demoUnbEnv : CallEnv :=
  demoEnv (SolveOutcome.finished "unbounded" none)

/-- Environment with an infeasible solve. -/
def demoInfEnv : CallEnv :=
  demoEnv (SolveOutcome.finished "infeasible" none)

/-- Environment whose solver raises `cvx.SolverError`. -/
def demoErrEnv : CallEnv :=
  demoEnv SolveOutcome.raisesSolverError

/-- Environment with an inaccurate terminal status and no value for
`z`. -/
def demoInacEnv : CallEnv :=
  demoEnv (SolveOutcome.finished "infeasible_inaccurate" none)

/-- Environment whose cvxpy reports the alpha term non-concave (and a
solver that would happily report an optimum, to show it is never
consulted). -/
def demoBadAlphaEnv : CallEnv where
  today := 7
  mkAlphaTerm := fun _ _ => { tag := 0, is_concave := false, is_convex := false }
  solve := fun _ _ _ => SolveOutcome.finished "optimal" (some [0, 0, 0])

/-! ### Witnesses -/

/-- Witness for C1 at the demo strategy, holdings {A: 50, B: 30,
cash: 20} and an optimal solve with `z = [1/10, -1/10, 0]`. -/
theorem spo_optimal_trades_witness :
    (generate_trade_list demoSPO demoOptEnv demoHoldings (some 3)).2.2
        = Except.ok { index := demoHoldings.index
                      data := [(1 : ℚ)/10, -1/10, 0].map
                        (fun zi => zi * seriesValue demoHoldings) }
      ∧ ([(1 : ℚ)/10, -1/10, 0].map
          (fun zi => zi * seriesValue demoHoldings)).sum = 0
      ∧ ProbConstr.zeroSumTrades
          ∈ (builtProblem demoSPO demoOptEnv demoHoldings
              (resolveT (some 3) demoOptEnv)).constraints :=
  spo_optimal_trades demoSPO demoOptEnv demoHoldings (some 3)
    [(1 : ℚ)/10, -1/10, 0] rfl rfl
    (by norm_num [List.sum_cons, List.sum_nil])

/-- Witness for C2 at the demo strategy and an optimal solve. -/
theorem spo_program_shape_witness :
    (generate_trade_list demoSPO demoOptEnv demoHoldings (some 3)).1.prob
        = some (builtProblem demoSPO demoOptEnv demoHoldings
            (resolveT (some 3) demoOptEnv))
      ∧ (builtProblem demoSPO demoOptEnv demoHoldings
            (resolveT (some 3) demoOptEnv)).maximand
          = demoOptEnv.mkAlphaTerm
              (demoSPO.forecast_returns (resolveT (some 3) demoOptEnv))
              (seriesWeights demoHoldings)
      ∧ (builtProblem demoSPO demoOptEnv demoHoldings
            (resolveT (some 3) demoOptEnv)).constraints
          = ProbConstr.zeroSumTrades
              :: ((collectFromCosts demoSPO.costs (resolveT (some 3) demoOptEnv)
                      (seriesWeights demoHoldings) (seriesValue demoHoldings)).2
                  ++ providerConstraints demoSPO.constraints
                      (resolveT (some 3) demoOptEnv)
                      (seriesWeights demoHoldings)
                      (seriesValue demoHoldings)).map ProbConstr.user :=
  spo_program_shape demoSPO demoOptEnv demoHoldings (some 3) rfl

/-- Witness for C3 at the demo strategy and an unbounded solve with
timestamp 3. -/
theorem spo_unbounded_soft_failure_witness :
    (generate_trade_list demoSPO demoUnbEnv demoHoldings (some 3)).2
        = ([LogMsg.unboundedAt (resolveT (some 3) demoUnbEnv)],
           Except.ok (zerotrade demoHoldings))
      ∧ (zerotrade demoHoldings).index = demoHoldings.index
      ∧ (zerotrade demoHoldings).data.length = demoHoldings.index.length
      ∧ ∀ x ∈ (zerotrade demoHoldings).data, x = 0 :=
  spo_unbounded_soft_failure demoSPO demoUnbEnv demoHoldings (some 3) none
    rfl rfl

/-- Witness for C4 at the demo strategy and an infeasible solve. -/
theorem spo_infeasible_hard_failure_witness :
    (generate_trade_list demoSPO demoInfEnv demoHoldings (some 3)).2.2
        = Except.error ⟨ExnCls.exception, ExnMsg.problemInfeasible⟩
      ∧ exceptHandler demoSPO.solver
            ⟨ExnCls.exception, ExnMsg.problemInfeasible⟩
          = ⟨ExnCls.exception, ExnMsg.problemInfeasible⟩
      ∧ ∀ s : Option String,
          (⟨ExnCls.exception, ExnMsg.problemInfeasible⟩ : Exn)
            ≠ ⟨ExnCls.exception, ExnMsg.solverFailed s⟩ :=
  spo_infeasible_hard_failure demoSPO demoInfEnv demoHoldings (some 3) none
    rfl rfl

/-- Witness for C5 at the demo strategy with a solver raise: the error
names the configured solver `'ECOS'`. -/
theorem spo_solver_raise_failure_witness :
    (generate_trade_list demoSPO demoErrEnv demoHoldings (some 3)).2.2
        = Except.error
            ⟨ExnCls.exception, ExnMsg.solverFailed (some "ECOS")⟩ :=
  spo_solver_raise_failure demoSPO demoErrEnv demoHoldings (some 3)
    rfl (Or.inl rfl)

/-- Witness for C6 at the demo strategy with an environment reporting
the alpha term non-concave: the call ends in the assertion failure,
untouched state, solver never consulted. -/
theorem spo_nonconvex_assert_fails_fast_witness :
    generate_trade_list demoSPO demoBadAlphaEnv demoHoldings (some 3)
      = (demoSPO, [],
         Except.error ⟨ExnCls.assertionError, ExnMsg.assertFailed⟩) :=
  spo_nonconvex_assert_fails_fast demoSPO demoBadAlphaEnv demoHoldings
    (some 3) (Or.inl rfl)

/-- Witness for C10 at the demo strategy with terminal status
`'infeasible_inaccurate'` and `z.value = None`: the call reports the
solver-failed error. -/
theorem spo_status_not_checked_witness :
    (generate_trade_list demoSPO demoInacEnv demoHoldings (some 3)).2.2
        = Except.error
            ⟨ExnCls.exception, ExnMsg.solverFailed demoSPO.solver⟩ := by
  have h := spo_status_not_checked demoSPO demoInacEnv demoHoldings (some 3)
    "infeasible_inaccurate" none rfl rfl (by decide) (by decide)
  exact h
